import Mathlib

/-!
Shallow embedding of the QC-Tool data extractor (`src/data_extractor.py`).

Pixel buffers, PDF pages and the decoding backends (pyzbar, OpenCV,
QReader, Tesseract) are external to the program; they are modelled as
abstract data supplied through environment records, with a fallible call
rendered as `Except String`.  The control flow of the extractor itself —
the barcode/QR fallback chain, the per-field dispatch, the page loop and
the coordinate scaling — is translated statement by statement.
-/

namespace QCTool

/-- An abstract raster image (the contents of a pixmap). -/
abbrev Image := Nat

/-- A rectangle, as the 4-tuple `(x0, y0, x1, y1)` the extractor passes
around.  Coordinates are exact rationals standing for the Python floats. -/
structure Rect where
  x0 : ℚ
  y0 : ℚ
  x1 : ℚ
  y1 : ℚ
deriving DecidableEq, Repr

/-- A symbol as returned by `pyzbar.decode`: symbology type, payload bytes
(`zdata = none` models bytes on which `.decode` raises a unicode error),
and the bounding box fields read in method 1. -/
structure ZObj where
  ztype : String
  zdata : Option String
  zleft : Int
  ztop : Int
  zwidth : Int
  zheight : Int
deriving DecidableEq, Repr

/-- One entry of the `codes` list of a decode outcome. -/
structure Code where
  ctype : String
  cdata : String
  quality : String
  crect : Option (Int × Int × Int × Int)
deriving DecidableEq, Repr

/-- The `results` dictionary built by `decode_barcodes_and_qr`. -/
structure DecodeResults where
  decoded : Bool
  codes : List Code
  method : Option String
  error : Option String
deriving DecidableEq, Repr

/-- The decoding backends and availability flags visible to
`decode_barcodes_and_qr`: module flags `PYZBAR_AVAILABLE` and
`QREADER_AVAILABLE`, `pyzbar.decode`, `cv2.cvtColor` to grayscale,
`cv2.QRCodeDetector().detectAndDecode` (returning the data string, empty
when nothing is found), `QReader().detect_and_decode` (a tuple of optional
strings), `cv2.GaussianBlur` and `cv2.adaptiveThreshold`. -/
structure DecodeEnv where
  pyzbarAvailable : Bool
  qreaderAvailable : Bool
  pyzbarDecode : Image → Except String (List ZObj)
  cvtGray : Image → Except String Image
  qrDetect : Image → Except String String
  qreaderDetect : Image → Except String (List (Option String))
  gaussianBlur : Image → Except String Image
  adaptThresh : Image → Except String Image

/-- The message `str(e)` of a `UnicodeDecodeError` raised by
`obj.data.decode` on undecodable bytes (modelled as a fixed string). -/
def utf8ErrMsg : String := "invalid utf-8"

/-- The `if results["error"]: ... += "; " + msg  else: ... = msg` pattern
of methods 2-4 (Python truthiness: an empty string counts as unset). -/
def addErr (old : Option String) (msg : String) : Option String :=
  match old with
  | some e => if e = "" then some msg else some (e ++ "; " ++ msg)
  | none => some msg

/-- The `for obj in decoded_objects` loops of methods 1 and 4: append a
code per object until `obj.data.decode` raises; the second component
reports whether the loop raised. -/
def collectCodes (quality : String) (withRect : Bool) : List ZObj → List Code × Bool
  | [] => ([], false)
  | o :: rest =>
    match o.zdata with
    | none => ([], true)
    | some s =>
      let c : Code :=
        ⟨o.ztype, s, quality, if withRect then some (o.zleft, o.ztop, o.zwidth, o.zheight) else none⟩
      let (cs, raised) := collectCodes quality withRect rest
      (c :: cs, raised)

/-- Method 1 of `decode_barcodes_and_qr` (pyzbar on the color image),
`src/data_extractor.py` lines 107-129.  The boolean is true when the
Python code returns early. -/
def method1 (env : DecodeEnv) (img : Image) (r : DecodeResults) : DecodeResults × Bool :=
  if env.pyzbarAvailable then
    match env.pyzbarDecode img with
    | .error e => ({ r with error := some ("pyzbar error: " ++ e) }, false)
    | .ok objs =>
      match objs with
      | [] => (r, false)
      | _ :: _ =>
        let r1 := { r with decoded := true, method := some "pyzbar" }
        let (cs, raised) := collectCodes "good" true objs
        if raised then
          ({ r1 with codes := r.codes ++ cs, error := some ("pyzbar error: " ++ utf8ErrMsg) }, false)
        else
          ({ r1 with codes := r.codes ++ cs }, true)
  else (r, false)

/-- Method 2 (OpenCV QR detector on the grayscale image), lines 131-154. -/
def method2 (env : DecodeEnv) (img : Image) (r : DecodeResults) : DecodeResults × Bool :=
  if r.decoded then (r, false) else
  match env.cvtGray img with
  | .error e => ({ r with error := addErr r.error ("opencv error: " ++ e) }, false)
  | .ok gray =>
    match env.qrDetect gray with
    | .error e => ({ r with error := addErr r.error ("opencv error: " ++ e) }, false)
    | .ok data =>
      if data = "" then (r, false)
      else
        ({ r with
            decoded := true
            method := some "opencv_qr"
            codes := r.codes ++ [⟨"QRCODE", data, "opencv", none⟩] }, true)

/-- Method 3 (QReader, when available), lines 156-176. -/
def method3 (env : DecodeEnv) (img : Image) (r : DecodeResults) : DecodeResults × Bool :=
  if r.decoded then (r, false) else
  if env.qreaderAvailable then
    match env.qreaderDetect img with
    | .error e => ({ r with error := addErr r.error ("qreader error: " ++ e) }, false)
    | .ok texts =>
      match texts with
      | [] => (r, false)
      | t0 :: _ =>
        if t0.getD "" = "" then (r, false)
        else
          let newCodes := texts.filterMap (fun t =>
            match t with
            | some s => if s = "" then none else some (⟨"QRCODE", s, "qreader", none⟩ : Code)
            | none => none)
          ({ r with decoded := true, method := some "qreader", codes := r.codes ++ newCodes }, true)
  else (r, false)

/-- The preprocessing of method 4 (lines 181-192): grayscale, Gaussian
blur, adaptive threshold, any exception propagating to the method's
handler. -/
def threshedOf (env : DecodeEnv) (img : Image) : Except String Image :=
  match env.cvtGray img with
  | .error e => .error e
  | .ok gray =>
    match env.gaussianBlur gray with
    | .error e => .error e
    | .ok blurred => env.adaptThresh blurred

/-- Method 4 (the preprocessed pyzbar retry), lines 178-210. -/
def method4 (env : DecodeEnv) (img : Image) (r : DecodeResults) : DecodeResults × Bool :=
  if r.decoded then (r, false) else
  if env.pyzbarAvailable then
    match threshedOf env img with
    | .error e => ({ r with error := addErr r.error ("preprocessing error: " ++ e) }, false)
    | .ok thresh =>
      match env.pyzbarDecode thresh with
      | .error e => ({ r with error := addErr r.error ("preprocessing error: " ++ e) }, false)
      | .ok objs =>
        match objs with
        | [] => (r, false)
        | _ :: _ =>
          let r1 := { r with decoded := true, method := some "pyzbar_preprocessed" }
          let (cs, raised) := collectCodes "preprocessed" false objs
          if raised then
            ({ r1 with
                codes := r.codes ++ cs
                error := addErr r.error ("preprocessing error: " ++ utf8ErrMsg) }, false)
          else
            ({ r1 with codes := r.codes ++ cs }, true)
  else (r, false)

/-- The final `results["error"] = results["error"] or "No barcode..."`. -/
def finalErr : Option String → String
  | some e => if e = "" then "No barcode or QR code detected in region" else e
  | none => "No barcode or QR code detected in region"

/-- The body of `decode_barcodes_and_qr` after rasterization: the four
methods in order, each early-returning on success, then the final
error default (lines 100-215). -/
def decodeImage (env : DecodeEnv) (img : Image) : DecodeResults :=
  let r0 : DecodeResults := { decoded := false, codes := [], method := none, error := none }
  let s1 := method1 env img r0
  if s1.2 then s1.1 else
  let s2 := method2 env img s1.1
  if s2.2 then s2.1 else
  let s3 := method3 env img s2.1
  if s3.2 then s3.1 else
  let s4 := method4 env img s3.1
  if s4.2 then s4.1 else
  if s4.1.decoded then s4.1
  else { s4.1 with error := some (finalErr s4.1.error) }

/-- A PDF page as the barcode decoder sees it: `rasterB rect z` is the
pixmap of the page clipped to `rect` at zoom matrix `Matrix(z, z)`. -/
structure PageB where
  rasterB : Rect → Nat → Image

/-- `decode_barcodes_and_qr` (lines 84-215): rasterize the clipped region
at zoom 3 and run the fallback chain on that single image. -/
def decode_barcodes_and_qr (env : DecodeEnv) (page : PageB) (rect : Rect) : DecodeResults :=
  decodeImage env (page.rasterB rect 3)

/-- Python `round(x, 2)`: round to hundredths, ties to even.  The floor
of `n` is Euclidean division of numerator by (positive) denominator, and
the fractional part `r = n - f` is compared with 1/2 by cross
multiplication (`r < 1/2` iff `2 * r.num < r.den`). -/
def round2 (q : ℚ) : ℚ :=
  let n : ℚ := q * 100
  let f : ℤ := n.num.ediv n.den
  let r : ℚ := n - (f : ℚ)
  let k : ℤ :=
    if 2 * r.num < (r.den : ℤ) then f
    else if (r.den : ℤ) < 2 * r.num then f + 1
    else if f % 2 = 0 then f else f + 1
  (k : ℚ) / 100

/-- Each coordinate of the result record is rounded to two decimals. -/
def roundRect (r : Rect) : Rect :=
  ⟨round2 r.x0, round2 r.y0, round2 r.x1, round2 r.y1⟩

/-- One entry of the template's `fields` list.  `ftype` is `none` when the
JSON omits `"type"` (the code reads it with `.get("type", "text")`) and
`ocr` likewise models `.get("ocr", False)`. -/
structure FieldDef where
  name : String
  x0 : ℚ
  y0 : ℚ
  x1 : ℚ
  y1 : ℚ
  ftype : Option String
  ocr : Option Bool
deriving DecidableEq, Repr

/-- The loaded template dictionary (the keys the extractor reads). -/
structure Template where
  page_width : ℚ
  page_height : ℚ
  pdf_name : String
  fields : List FieldDef
deriving Repr

/-- The Tesseract backend: `pytesseract.image_to_string`. -/
structure OcrEnv where
  imageToString : Image → Except String String

/-- A PDF page as the extractor reads it: its dimensions, the native text
under a clip (before `.strip()`), pixmaps at a zoom, and the number of
embedded image placements intersecting a clip (the enumeration done by
`check_images_in_rect` over `page.get_images`). -/
structure PageData where
  width : ℚ
  height : ℚ
  getTextRaw : Rect → String
  raster : Rect → Nat → Image
  imgCount : Rect → Nat

/-- Python `str.strip()`: drop leading and trailing whitespace. -/
def pyStrip (s : String) : String :=
  ⟨((s.data.dropWhile Char.isWhitespace).reverse.dropWhile Char.isWhitespace).reverse⟩

/-- `extract_text_from_rect` (lines 39-43). -/
def extract_text_from_rect (p : PageData) (r : Rect) : String :=
  pyStrip (p.getTextRaw r)

/-- `extract_text_via_ocr` (lines 46-63): rasterize the clip at zoom 2,
hand the image to Tesseract, trim, and turn a backend exception into a
`[OCR Failed: ...]` string. -/
def extract_text_via_ocr (oenv : OcrEnv) (p : PageData) (r : Rect) : String :=
  match oenv.imageToString (p.raster r 2) with
  | .ok s => pyStrip s
  | .error e => "[OCR Failed: " ++ e ++ "]"

/-- `check_images_in_rect` (lines 66-81): `(image_count > 0, image_count)`. -/
def check_images_in_rect (p : PageData) (r : Rect) : Bool × Nat :=
  (decide (0 < p.imgCount r), p.imgCount r)

/-- One per-field result record appended to `page_result["fields"]`. -/
inductive FieldResult where
  | image (value : String) (has_images : Bool) (image_count : Nat) (coordinates : Rect)
  | barcodeOk (value : String) (codes : List Code) (method : Option String) (coordinates : Rect)
  | barcodeFail (value : String) (error : Option String) (coordinates : Rect)
  | text (value : String) (confidence : String) (method : String) (coordinates : Rect)
deriving DecidableEq, Repr

/-- The `coordinates` entry of a result record. -/
def FieldResult.coords : FieldResult → Rect
  | .image _ _ _ c => c
  | .barcodeOk _ _ _ c => c
  | .barcodeFail _ _ c => c
  | .text _ _ _ c => c

/-- Lines 274-278: the rectangle used for extraction is the template
rectangle scaled component-wise, exactly as written. -/
def resolvedRect (fd : FieldDef) (sx sy : ℚ) : Rect :=
  ⟨fd.x0 * sx, fd.y0 * sy, fd.x1 * sx, fd.y1 * sy⟩

/-- Line 256: `scale_x = page_width / template_page_width if
template_page_width > 0 else 1.0`. -/
def scale_x (t : Template) (p : PageData) : ℚ :=
  if 0 < t.page_width then p.width / t.page_width else 1

/-- Line 257, the y axis analogue. -/
def scale_y (t : Template) (p : PageData) : ℚ :=
  if 0 < t.page_height then p.height / t.page_height else 1

/-- The per-field dispatch, lines 268-334: `"image"` and `"barcode"` get
their strategies, every other `field_type` falls into the text branch. -/
def extractField (oenv : OcrEnv) (denv : DecodeEnv) (p : PageData) (sx sy : ℚ)
    (fd : FieldDef) : FieldResult :=
  let field_type := fd.ftype.getD "text"
  let ocr_mode := fd.ocr.getD false
  let rect := resolvedRect fd sx sy
  if field_type = "image" then
    let hc := check_images_in_rect p rect
    FieldResult.image (if hc.1 then toString hc.2 ++ " image(s) found" else "No images found")
      hc.1 hc.2 (roundRect rect)
  else if field_type = "barcode" then
    let dr := decode_barcodes_and_qr denv ⟨p.raster⟩ rect
    if dr.decoded then
      let summary := dr.codes.map (fun c => c.ctype ++ ": " ++ c.cdata)
      FieldResult.barcodeOk
        (if summary.isEmpty then "No code detected" else String.intercalate " | " summary)
        dr.codes dr.method (roundRect rect)
    else
      FieldResult.barcodeFail "No code detected" dr.error (roundRect rect)
  else
    let text := if ocr_mode then extract_text_via_ocr oenv p rect else extract_text_from_rect p rect
    FieldResult.text text (if text = "" then "empty" else "extracted")
      (if ocr_mode then "ocr" else "digital") (roundRect rect)

/-- Lines 336-339: append a result under its field name, creating the
key on first use (Python dict keeps insertion order). -/
def addField (fields : List (String × List FieldResult)) (name : String) (r : FieldResult) :
    List (String × List FieldResult) :=
  match fields with
  | [] => [(name, [r])]
  | (n, rs) :: rest =>
    if n = name then (n, rs ++ [r]) :: rest else (n, rs) :: addField rest name r

/-- The `page_result` record built for one visited page. -/
structure PageResult where
  page_number : Nat
  width : ℚ
  height : ℚ
  fields : List (String × List FieldResult)
deriving DecidableEq, Repr

/-- The body of the page loop, lines 251-341: compute the scale factors
once, then fold the template's fields in order into the result dict. -/
def processPage (oenv : OcrEnv) (denv : DecodeEnv) (t : Template) (p : PageData)
    (page_num : Nat) : PageResult :=
  let sx := scale_x t p
  let sy := scale_y t p
  { page_number := page_num + 1
    width := p.width
    height := p.height
    fields := t.fields.foldl
      (fun acc fd => addField acc fd.name (extractField oenv denv p sx sy fd)) [] }

/-- The fields of the output dictionary that the claims reach (source
name, template name and timestamp are plain strings and are omitted). -/
structure ExtractionDoc where
  total_pages : Nat
  pages : List PageResult
deriving DecidableEq, Repr

/-- `extract_data_from_pdf` (lines 218-344): a falsy `pages` argument
(absent or the empty list) means all pages; indices at or beyond the page
count are skipped; the given order of `pages` is followed as is. -/
def extract_data_from_pdf (oenv : OcrEnv) (denv : DecodeEnv) (doc : List PageData)
    (t : Template) (pages : Option (List Nat)) : ExtractionDoc :=
  let pagesToProcess : List Nat :=
    match pages with
    | some ps => if ps.isEmpty then List.range doc.length else ps
    | none => List.range doc.length
  { total_pages := doc.length
    pages := pagesToProcess.filterMap (fun i =>
      match doc[i]? with
      | some p => some (processPage oenv denv t p i)
      | none => none) }

/-! ## Observation helpers for the fallback chain -/

/-- What pyzbar found on an image, an exception counting as nothing. -/
def zObjsOf : Except String (List ZObj) → List ZObj
  | .ok l => l
  | .error _ => []

/-- What the OpenCV QR detector of method 2 reads from the image, an
exception counting as the empty string. -/
def qrDataOf (env : DecodeEnv) (img : Image) : String :=
  match env.cvtGray img with
  | .error _ => ""
  | .ok gray =>
    match env.qrDetect gray with
    | .error _ => ""
    | .ok d => d

/-- The first entry of QReader's answer, missing or exceptional answers
counting as the empty string. -/
def qreaderFirstOf (env : DecodeEnv) (img : Image) : String :=
  match env.qreaderDetect img with
  | .ok (t :: _) => t.getD ""
  | _ => ""

/-- What method 4's pyzbar retry finds on the preprocessed image. -/
def preprocObjsOf (env : DecodeEnv) (img : Image) : List ZObj :=
  match threshedOf env img with
  | .ok t => zObjsOf (env.pyzbarDecode t)
  | .error _ => []

/-- The invariant the decode outcome keeps: a non-empty code list only
with `decoded`, and a method identifier whenever `decoded`. -/
def GoodOutcome (r : DecodeResults) : Prop :=
  (r.codes ≠ [] → r.decoded = true) ∧ (r.decoded = true → r.method ≠ none)

/-- Looking a field name up in the result dictionary (absent names give
the empty list). -/
def lookupFL (name : String) : List (String × List FieldResult) → List FieldResult
  | [] => []
  | (n, rs) :: rest => if n = name then rs else lookupFL name rest

/-! ## The spec's OCR preprocessing, for comparison with the code -/

/-- Modelled from the spec: the `ImagePreprocessor` component (§4.3) is
not part of the repository's files; its grayscale conversion, adaptive
thresholding and denoising are abstract transforms, the latter two
fallible. -/
structure PreprocEnv where
  grayscale : Image → Image
  adaptiveThreshold : Image → Except String Image
  denoise : Image → Except String Image

/-- Modelled from the spec: the grayscale + adaptive-threshold + denoise
chain §4.4 says the OCR engine applies, any preprocessing exception
falling back to simple grayscale conversion. -/
def specOcrPreprocess (pp : PreprocEnv) (img : Image) : Image :=
  match pp.adaptiveThreshold (pp.grayscale img) with
  | .error _ => pp.grayscale img
  | .ok t =>
    match pp.denoise t with
    | .error _ => pp.grayscale img
    | .ok d => d

/-- Modelled from the spec: the OCR extraction as §4.4 describes it —
rasterize, preprocess with the chain above, then recognize. -/
def specOcrClaimed (pp : PreprocEnv) (oenv : OcrEnv) (p : PageData) (r : Rect) : String :=
  match oenv.imageToString (specOcrPreprocess pp (p.raster r 2)) with
  | .ok s => pyStrip s
  | .error e => "[OCR Failed: " ++ e ++ "]"

/-! ## Concrete fixtures -/

def rectTriv : Rect := ⟨0, 0, 10, 10⟩

/-- A page whose raster at zoom `z` is the abstract image `z`. -/
def pageBTriv : PageB := ⟨fun _ z => z⟩

/-- A page agreeing with `pageBTriv` at zoom 3 and nowhere else. -/
def pageBAlt : PageB := ⟨fun _ z => if z = 3 then 3 else 99⟩

/-- Backends on which every decode attempt comes back empty. -/
def denvFail : DecodeEnv where
  pyzbarAvailable := true
  qreaderAvailable := false
  pyzbarDecode := fun _ => .ok []
  cvtGray := fun i => .ok i
  qrDetect := fun _ => .ok ""
  qreaderDetect := fun _ => .ok []
  gaussianBlur := fun i => .ok i
  adaptThresh := fun i => .ok i

/-- Backends where pyzbar finds one symbol whose bytes are not UTF-8. -/
def denvUtf : DecodeEnv :=
  { denvFail with pyzbarDecode := fun _ => .ok [⟨"EAN13", none, 0, 0, 0, 0⟩] }

/-- Backends where pyzbar reports the same symbol twice. -/
def denvDup : DecodeEnv :=
  { denvFail with
      pyzbarDecode := fun _ =>
        .ok [⟨"QRCODE", some "X", 0, 0, 0, 0⟩, ⟨"QRCODE", some "X", 0, 0, 0, 0⟩] }

/-- Backends decoding nothing at the zoom-3 raster of `pageBTriv` but a
symbol on its zoom-5 raster. -/
def denvZoom : DecodeEnv :=
  { denvFail with
      pyzbarDecode := fun i =>
        if i = 5 then .ok [⟨"QRCODE", some "ESCALATED", 0, 0, 0, 0⟩] else .ok [] }

def oenvTriv : OcrEnv := ⟨fun _ => .ok ""⟩

def pageDTriv : PageData where
  width := 600
  height := 800
  getTextRaw := fun _ => ""
  raster := fun _ z => z
  imgCount := fun _ => 0

/-- A template with no scaling reference and one field whose x
coordinates come reversed. -/
def fdF : FieldDef := ⟨"F", 100, 20, 10, 50, none, none⟩

def t1 : Template := ⟨0, 0, "t", [fdF]⟩

/-- A template with one field of the unrecognized mode "bogus". -/
def t3 : Template := ⟨0, 0, "t", [⟨"B", 0, 0, 10, 10, some "bogus", none⟩]⟩

/-- A template with no fields. -/
def t0 : Template := ⟨0, 0, "t", []⟩

def fdBogus : FieldDef := ⟨"B", 0, 0, 10, 10, some "bogus", none⟩

/-- Preprocessing that visibly changes the image (thresholding adds 1). -/
def ppC6 : PreprocEnv where
  grayscale := fun i => i
  adaptiveThreshold := fun i => .ok (i + 1)
  denoise := fun i => .ok i

/-- An OCR backend reading the abstract image number back as text. -/
def oenvNum : OcrEnv := ⟨fun i => .ok (toString i)⟩

/-- A page rasterizing to image 0 at every zoom. -/
def pageDZero : PageData where
  width := 600
  height := 800
  getTextRaw := fun _ => ""
  raster := fun _ _ => 0
  imgCount := fun _ => 0

/-- The extraction mode a result record came from (its `type` entry). -/
def FieldResult.kindTag : FieldResult → String
  | .image _ _ _ _ => "image"
  | .barcodeOk _ _ _ _ => "barcode"
  | .barcodeFail _ _ _ => "barcode"
  | .text _ _ _ _ => "text"

lemma int_ediv_one (a : ℤ) : a.ediv 1 = a := Int.ediv_one a

/-- `round2` is the identity on integral values. -/
lemma round2_intCast (z : ℤ) : round2 ((z : ℤ) : ℚ) = (z : ℚ) := by
  have h1 : ((z : ℚ)) * 100 = ((z * 100 : ℤ) : ℚ) := by push_cast; ring
  simp only [round2, h1, Rat.num_intCast, Rat.den_intCast, Nat.cast_one, int_ediv_one,
    sub_self]
  norm_num

/-! ## Claims -/

/-- C10: calling `extract_data_from_pdf` with an empty page list behaves
identically to calling it with no page selection at all — `pages if pages
else ...` treats the empty list as falsy, so every page is processed. -/
theorem empty_page_list_means_all_pages (oenv : OcrEnv) (denv : DecodeEnv)
    (doc : List PageData) (t : Template) :
    extract_data_from_pdf oenv denv doc t (some []) =
      extract_data_from_pdf oenv denv doc t none := rfl

/-- C8: `scale_x` is `page.width / template.page_width` when the template
width is positive and exactly 1 when it is ≤ 0, analogously for
`scale_y`; each axis is decided independently, depending only on its own
pair of dimensions. -/
theorem scale_factor_definition (t : Template) (p : PageData) :
    ((0 : ℚ) < t.page_width → scale_x t p = p.width / t.page_width) ∧
    (t.page_width ≤ 0 → scale_x t p = 1) ∧
    ((0 : ℚ) < t.page_height → scale_y t p = p.height / t.page_height) ∧
    (t.page_height ≤ 0 → scale_y t p = 1) ∧
    (∀ (s : Template) (q : PageData), s.page_width = t.page_width → q.width = p.width →
      scale_x s q = scale_x t p) ∧
    (∀ (s : Template) (q : PageData), s.page_height = t.page_height → q.height = p.height →
      scale_y s q = scale_y t p) := by
  refine ⟨fun h => ?_, fun h => ?_, fun h => ?_, fun h => ?_,
    fun s q hw hp => ?_, fun s q hh hp => ?_⟩
  · rw [scale_x, if_pos h]
  · rw [scale_x, if_neg (not_lt.mpr h)]
  · rw [scale_y, if_pos h]
  · rw [scale_y, if_neg (not_lt.mpr h)]
  · rw [scale_x, scale_x, hw, hp]
  · rw [scale_y, scale_y, hh, hp]

/-- C2, counterexample: with backends that decode nothing on the zoom-3
raster but would decode a symbol on the zoom-5 raster, the outcome is
still `decoded = false` — no escalation to a higher zoom happens. -/
theorem no_zoom_escalation_cex :
    (decode_barcodes_and_qr denvZoom pageBTriv rectTriv).decoded = false ∧
    denvZoom.pyzbarDecode (pageBTriv.rasterB rectTriv 5) =
      .ok [⟨"QRCODE", some "ESCALATED", 0, 0, 0, 0⟩] := ⟨rfl, rfl⟩

/-- C2, amended: `decode_barcodes_and_qr` rasterizes the region once, at
zoom 3, and its outcome depends only on that raster — no higher zoom
factor and no further preprocessing variants are ever consulted. -/
theorem decode_uses_only_zoom3 (env : DecodeEnv) (p q : PageB) (rect : Rect)
    (h : p.rasterB rect 3 = q.rasterB rect 3) :
    decode_barcodes_and_qr env p rect = decode_barcodes_and_qr env q rect := by
  unfold decode_barcodes_and_qr
  rw [h]

/-- Witness for C2's amended theorem: two pages agreeing at zoom 3 only
get the same outcome. -/
theorem decode_uses_only_zoom3_witness :
    decode_barcodes_and_qr denvZoom pageBTriv rectTriv =
      decode_barcodes_and_qr denvZoom pageBAlt rectTriv :=
  decode_uses_only_zoom3 denvZoom pageBTriv pageBAlt rectTriv rfl

/-- C6, counterexample: with preprocessing that visibly changes the image
and a backend reading the image back, the code's OCR path returns the
recognition of the raw raster, not of the preprocessed image the spec
describes. -/
theorem ocr_skips_preprocessing_cex :
    extract_text_via_ocr oenvNum pageDZero rectTriv = "0" ∧
    specOcrClaimed ppC6 oenvNum pageDZero rectTriv = "1" ∧
    extract_text_via_ocr oenvNum pageDZero rectTriv ≠
      specOcrClaimed ppC6 oenvNum pageDZero rectTriv := ⟨rfl, rfl, by decide⟩

/-- C6, amended: `extract_text_via_ocr` hands the raw zoom-2 raster
directly to the recognition backend with no preprocessing; a backend
exception becomes an `[OCR Failed: ...]` diagnostic string instead of
propagating. -/
theorem ocr_no_preprocessing (oenv : OcrEnv) (p : PageData) (r : Rect) :
    (∀ s, oenv.imageToString (p.raster r 2) = .ok s →
      extract_text_via_ocr oenv p r = pyStrip s) ∧
    (∀ e, oenv.imageToString (p.raster r 2) = .error e →
      extract_text_via_ocr oenv p r = "[OCR Failed: " ++ e ++ "]") := by
  constructor
  · intro s h
    rw [extract_text_via_ocr, h]
  · intro e h
    rw [extract_text_via_ocr, h]

/-! ## The chain under failing probes -/

lemma method1_noFind (env : DecodeEnv) (img : Image) (r : DecodeResults)
    (h : env.pyzbarAvailable = true → zObjsOf (env.pyzbarDecode img) = []) :
    (method1 env img r).2 = false ∧ (method1 env img r).1.decoded = r.decoded := by
  unfold method1
  split
  case isTrue hA =>
    split
    next e heq => exact ⟨rfl, rfl⟩
    next objs heq =>
      split
      next => exact ⟨rfl, rfl⟩
      next o rest =>
        exfalso
        have hz := h hA
        rw [heq] at hz
        simp [zObjsOf] at hz
  case isFalse => exact ⟨rfl, rfl⟩

lemma method2_noFind (env : DecodeEnv) (img : Image) (r : DecodeResults)
    (h : qrDataOf env img = "") :
    (method2 env img r).2 = false ∧ (method2 env img r).1.decoded = r.decoded := by
  unfold method2
  split
  · exact ⟨rfl, rfl⟩
  split
  next e heq => exact ⟨rfl, rfl⟩
  next gray heq =>
    split
    next e heq2 => exact ⟨rfl, rfl⟩
    next data heq2 =>
      split
      · exact ⟨rfl, rfl⟩
      next hne =>
        exfalso
        apply hne
        simp only [qrDataOf, heq, heq2] at h
        exact h

lemma method3_noFind (env : DecodeEnv) (img : Image) (r : DecodeResults)
    (h : env.qreaderAvailable = true → qreaderFirstOf env img = "") :
    (method3 env img r).2 = false ∧ (method3 env img r).1.decoded = r.decoded := by
  unfold method3
  split
  · exact ⟨rfl, rfl⟩
  split
  case isTrue hA =>
    split
    next e heq => exact ⟨rfl, rfl⟩
    next texts heq =>
      split
      next => exact ⟨rfl, rfl⟩
      next t0 rest =>
        split
        · exact ⟨rfl, rfl⟩
        next hne =>
          exfalso
          apply hne
          have hz := h hA
          rw [qreaderFirstOf, heq] at hz
          exact hz
  case isFalse => exact ⟨rfl, rfl⟩

lemma method4_noFind (env : DecodeEnv) (img : Image) (r : DecodeResults)
    (h : env.pyzbarAvailable = true → preprocObjsOf env img = []) :
    (method4 env img r).2 = false ∧ (method4 env img r).1.decoded = r.decoded := by
  unfold method4
  split
  · exact ⟨rfl, rfl⟩
  split
  case isTrue hA =>
    split
    next e heq => exact ⟨rfl, rfl⟩
    next thresh heq =>
      split
      next e heq2 => exact ⟨rfl, rfl⟩
      next objs heq2 =>
        split
        next => exact ⟨rfl, rfl⟩
        next o rest =>
          exfalso
          have hz := h hA
          simp [preprocObjsOf, heq, heq2, zObjsOf] at hz
  case isFalse => exact ⟨rfl, rfl⟩

lemma decodeImage_noFind (env : DecodeEnv) (img : Image)
    (h1 : env.pyzbarAvailable = true → zObjsOf (env.pyzbarDecode img) = [])
    (h2 : qrDataOf env img = "")
    (h3 : env.qreaderAvailable = true → qreaderFirstOf env img = "")
    (h4 : env.pyzbarAvailable = true → preprocObjsOf env img = []) :
    (decodeImage env img).decoded = false ∧ (decodeImage env img).error ≠ none := by
  obtain ⟨a1, b1⟩ :=
    method1_noFind env img { decoded := false, codes := [], method := none, error := none } h1
  obtain ⟨a2, b2⟩ := method2_noFind env img
    (method1 env img { decoded := false, codes := [], method := none, error := none }).1 h2
  obtain ⟨a3, b3⟩ := method3_noFind env img
    (method2 env img
      (method1 env img { decoded := false, codes := [], method := none, error := none }).1).1 h3
  obtain ⟨a4, b4⟩ := method4_noFind env img
    (method3 env img
      (method2 env img
        (method1 env img
          { decoded := false, codes := [], method := none, error := none }).1).1).1 h4
  have hdec := b1
  rw [← b2, ← b3, ← b4] at hdec
  simp only [decodeImage, a1, a2, a3, a4, hdec, Bool.false_eq_true, if_false]
  simp

/-- C5: over a region where no method of the fallback chain finds a
symbol, `decode_barcodes_and_qr` yields `decoded = false` with a non-null
diagnostic error message; backend exceptions are values of the
environment's `Except` results, handled inside each step, so the function
is total and nothing propagates to the caller. -/
theorem no_symbol_no_decode (env : DecodeEnv) (page : PageB) (rect : Rect)
    (h1 : env.pyzbarAvailable = true → zObjsOf (env.pyzbarDecode (page.rasterB rect 3)) = [])
    (h2 : qrDataOf env (page.rasterB rect 3) = "")
    (h3 : env.qreaderAvailable = true → qreaderFirstOf env (page.rasterB rect 3) = "")
    (h4 : env.pyzbarAvailable = true → preprocObjsOf env (page.rasterB rect 3) = []) :
    (decode_barcodes_and_qr env page rect).decoded = false ∧
    (decode_barcodes_and_qr env page rect).error ≠ none :=
  decodeImage_noFind env (page.rasterB rect 3) h1 h2 h3 h4

/-- Witness for C5 at backends on which every probe comes back empty. -/
theorem no_symbol_no_decode_witness :
    (decode_barcodes_and_qr denvFail pageBTriv rectTriv).decoded = false ∧
    (decode_barcodes_and_qr denvFail pageBTriv rectTriv).error ≠ none :=
  no_symbol_no_decode denvFail pageBTriv rectTriv
    (fun _ => rfl) rfl (fun _ => rfl) (fun _ => rfl)

/-! ## The outcome invariant -/

lemma method1_good (env : DecodeEnv) (img : Image) (r : DecodeResults)
    (h : GoodOutcome r) : GoodOutcome (method1 env img r).1 := by
  unfold method1
  split
  · split
    next e heq => exact ⟨h.1, h.2⟩
    next objs heq =>
      split
      next => exact h
      next o rest =>
        constructor <;> intro _ <;> (repeat' split) <;> simp
  · exact h

lemma method2_good (env : DecodeEnv) (img : Image) (r : DecodeResults)
    (h : GoodOutcome r) : GoodOutcome (method2 env img r).1 := by
  unfold method2
  split
  · exact h
  split
  next e heq => exact ⟨h.1, h.2⟩
  next gray heq =>
    split
    next e heq2 => exact ⟨h.1, h.2⟩
    next data heq2 =>
      split
      · exact h
      · exact ⟨fun _ => rfl, fun _ => by simp⟩

lemma method3_good (env : DecodeEnv) (img : Image) (r : DecodeResults)
    (h : GoodOutcome r) : GoodOutcome (method3 env img r).1 := by
  unfold method3
  split
  · exact h
  split
  · split
    next e heq => exact ⟨h.1, h.2⟩
    next texts heq =>
      split
      next => exact h
      next t0 rest =>
        split
        · exact h
        · exact ⟨fun _ => rfl, fun _ => by simp⟩
  · exact h

lemma method4_good (env : DecodeEnv) (img : Image) (r : DecodeResults)
    (h : GoodOutcome r) : GoodOutcome (method4 env img r).1 := by
  unfold method4
  split
  · exact h
  split
  · split
    next e heq => exact ⟨h.1, h.2⟩
    next thresh heq =>
      split
      next e heq2 => exact ⟨h.1, h.2⟩
      next objs heq2 =>
        split
        next => exact h
        next o rest =>
          constructor <;> intro _ <;> (repeat' split) <;> simp
  · exact h

lemma decodeImage_good (env : DecodeEnv) (img : Image) :
    GoodOutcome (decodeImage env img) := by
  have g0 : GoodOutcome { decoded := false, codes := [], method := none, error := none } :=
    ⟨fun h => absurd rfl h, fun h => by cases h⟩
  have g1 := method1_good env img _ g0
  have g2 := method2_good env img _ g1
  have g3 := method3_good env img _ g2
  have g4 := method4_good env img _ g3
  simp only [decodeImage]
  split
  · exact g1
  split
  · exact g2
  split
  · exact g3
  split
  · exact g4
  split
  · exact g4
  · exact ⟨g4.1, g4.2⟩

/-- C9, counterexample: when pyzbar detects a symbol whose payload bytes
are not valid UTF-8, the loop building the codes list raises after
`decoded` was already set, so the outcome has `decoded = true` with an
empty codes list — the claimed "decoded iff codes non-empty" fails. -/
theorem decoded_with_empty_codes_cex :
    (decode_barcodes_and_qr denvUtf pageBTriv rectTriv).decoded = true ∧
    (decode_barcodes_and_qr denvUtf pageBTriv rectTriv).codes = [] := ⟨rfl, rfl⟩

/-- C9, amended: a non-empty codes list implies `decoded = true`, and
`decoded = true` implies a non-null method identifier; but `decoded` with
an empty codes list is possible (when converting a detected symbol's
bytes to text raises), so the biconditional does not hold. -/
theorem decode_outcome_weak_invariant (env : DecodeEnv) (page : PageB) (rect : Rect) :
    ((decode_barcodes_and_qr env page rect).codes ≠ [] →
      (decode_barcodes_and_qr env page rect).decoded = true) ∧
    ((decode_barcodes_and_qr env page rect).decoded = true →
      (decode_barcodes_and_qr env page rect).method ≠ none) :=
  decodeImage_good env (page.rasterB rect 3)

/-! ## Code list order -/

lemma collectCodes_all_ok (quality : String) (wr : Bool) (objs : List ZObj)
    (h : ∀ o ∈ objs, o.zdata.isSome) :
    collectCodes quality wr objs =
      (objs.map (fun o => ⟨o.ztype, o.zdata.getD "", quality,
        if wr then some (o.zleft, o.ztop, o.zwidth, o.zheight) else none⟩), false) := by
  induction objs with
  | nil => rfl
  | cons o rest ih =>
    have ho := h o (by simp)
    obtain ⟨s, hs⟩ := Option.isSome_iff_exists.mp ho
    have hrest := ih (fun x hx => h x (by simp [hx]))
    simp [collectCodes, hs, hrest]

/-- C4, amended: within a single outcome the codes list is the first
successful method's symbols in decoder order, with no deduplication —
identical (type, text) pairs stay as separate entries (for a pyzbar
success whose payloads all convert, it is the decoded objects mapped in
order). -/
theorem pyzbar_codes_in_order (env : DecodeEnv) (page : PageB) (rect : Rect)
    (objs : List ZObj)
    (hA : env.pyzbarAvailable = true)
    (hd : env.pyzbarDecode (page.rasterB rect 3) = .ok objs)
    (hne : objs ≠ [])
    (hok : ∀ o ∈ objs, o.zdata.isSome) :
    (decode_barcodes_and_qr env page rect).codes =
      objs.map (fun o => ⟨o.ztype, o.zdata.getD "", "good",
        some (o.zleft, o.ztop, o.zwidth, o.zheight)⟩) := by
  cases objs with
  | nil => exact absurd rfl hne
  | cons o rest =>
    unfold decode_barcodes_and_qr decodeImage method1
    simp only [hA, hd, if_true]
    rw [collectCodes_all_ok "good" true (o :: rest) hok]
    simp

/-- Witness for C4's amended theorem: the duplicated pyzbar report keeps
both identical entries, in order. -/
theorem pyzbar_codes_in_order_witness :
    (decode_barcodes_and_qr denvDup pageBTriv rectTriv).codes =
      [⟨"QRCODE", "X", "good", some (0, 0, 0, 0)⟩,
       ⟨"QRCODE", "X", "good", some (0, 0, 0, 0)⟩] :=
  pyzbar_codes_in_order denvDup pageBTriv rectTriv
    [⟨"QRCODE", some "X", 0, 0, 0, 0⟩, ⟨"QRCODE", some "X", 0, 0, 0, 0⟩]
    rfl rfl (by simp) (by simp)

/-- C4, counterexample: backends on which pyzbar reports the same
(type, text) twice give an outcome whose codes list has two equal
entries — nothing deduplicates the pairs. -/
theorem duplicate_codes_cex :
    (decode_barcodes_and_qr denvDup pageBTriv rectTriv).codes.map
        (fun c => (c.ctype, c.cdata)) =
      [("QRCODE", "X"), ("QRCODE", "X")] ∧
    ¬ ((decode_barcodes_and_qr denvDup pageBTriv rectTriv).codes.map
        (fun c => (c.ctype, c.cdata))).Nodup := ⟨rfl, by decide⟩

/-! ## Coordinates -/

/-- C1, counterexample: a template field given as (x0, y0, x1, y1) =
(100, 20, 10, 50) with identity scaling is extracted and recorded with
x0 = 100 > x1 = 10 — no min/max normalization happens on either axis. -/
theorem coords_not_normalized_cex :
    ((extract_data_from_pdf oenvTriv denvFail [pageDTriv] t1 none).pages.map
      (fun pr => pr.fields.map (fun kv => (kv.1, kv.2.map FieldResult.coords)))) =
      [[("F", [roundRect (resolvedRect fdF (scale_x t1 pageDTriv) (scale_y t1 pageDTriv))])]] ∧
    ¬ ((roundRect (resolvedRect fdF (scale_x t1 pageDTriv) (scale_y t1 pageDTriv))).x0 ≤
       (roundRect (resolvedRect fdF (scale_x t1 pageDTriv) (scale_y t1 pageDTriv))).x1) := by
  have hsx : scale_x t1 pageDTriv = 1 := by rw [scale_x]; norm_num [t1]
  have hsy : scale_y t1 pageDTriv = 1 := by rw [scale_y]; norm_num [t1]
  have h100 : round2 (100 : ℚ) = 100 := by have h := round2_intCast 100; norm_num at h; exact h
  have h10 : round2 (10 : ℚ) = 10 := by have h := round2_intCast 10; norm_num at h; exact h
  refine ⟨rfl, ?_⟩
  rw [hsx, hsy]
  have hx0 : (roundRect (resolvedRect fdF 1 1)).x0 = 100 := by
    simp only [roundRect, resolvedRect, fdF, mul_one]
    exact h100
  have hx1 : (roundRect (resolvedRect fdF 1 1)).x1 = 10 := by
    simp only [roundRect, resolvedRect, fdF, mul_one]
    exact h10
  rw [hx0, hx1]
  norm_num

/-- C1, amended: the rectangle used for extraction and recorded (rounded)
in the result is exactly the template rectangle scaled component-wise by
(scale_x, scale_y), with no min/max normalization: the output preserves
whatever coordinate ordering the scaled template input has. -/
theorem resolved_rect_componentwise (oenv : OcrEnv) (denv : DecodeEnv) (p : PageData)
    (sx sy : ℚ) (fd : FieldDef) :
    (extractField oenv denv p sx sy fd).coords =
      roundRect ⟨fd.x0 * sx, fd.y0 * sy, fd.x1 * sx, fd.y1 * sy⟩ := by
  simp only [extractField]
  split
  · rfl
  split
  · split
    · rfl
    · rfl
  · rfl

/-! ## Dispatch of unrecognized modes -/

/-- C3, counterexample: a field whose mode is the unrecognized string
"bogus" is dispatched anyway and produces an ordinary text result — no
configuration error interrupts the run. -/
theorem unknown_mode_silently_text_cex :
    ((extract_data_from_pdf oenvTriv denvFail [pageDTriv] t3 none).pages.map
      (fun pr => pr.fields.map (fun kv => (kv.1, kv.2.map FieldResult.kindTag)))) =
      [[("B", ["text"])]] := rfl

/-- C3, amended: every mode other than "image" and "barcode" — the
default "text" but also any unrecognized string — falls silently into
the text branch (digital, or OCR when the field's flag is set); no
configuration error exists in the dispatcher. -/
theorem unknown_mode_defaults_to_text (oenv : OcrEnv) (denv : DecodeEnv) (p : PageData)
    (sx sy : ℚ) (fd : FieldDef)
    (h1 : fd.ftype.getD "text" ≠ "image")
    (h2 : fd.ftype.getD "text" ≠ "barcode") :
    extractField oenv denv p sx sy fd =
      FieldResult.text
        (if fd.ocr.getD false then extract_text_via_ocr oenv p (resolvedRect fd sx sy)
         else extract_text_from_rect p (resolvedRect fd sx sy))
        (if (if fd.ocr.getD false then extract_text_via_ocr oenv p (resolvedRect fd sx sy)
             else extract_text_from_rect p (resolvedRect fd sx sy)) = "" then "empty"
         else "extracted")
        (if fd.ocr.getD false then "ocr" else "digital")
        (roundRect (resolvedRect fd sx sy)) := by
  simp only [extractField]
  rw [if_neg h1, if_neg h2]

/-- Witness for C3's amended theorem at the concrete mode "bogus". -/
theorem unknown_mode_defaults_to_text_witness :
    extractField oenvTriv denvFail pageDTriv 1 1 fdBogus =
      FieldResult.text "" "empty" "digital" (roundRect (resolvedRect fdBogus 1 1)) :=
  unknown_mode_defaults_to_text oenvTriv denvFail pageDTriv 1 1 fdBogus
    (by decide) (by decide)

/-! ## Page and field order -/

lemma lookupFL_addField (acc : List (String × List FieldResult)) (m n : String)
    (r : FieldResult) :
    lookupFL n (addField acc m r) = lookupFL n acc ++ (if m = n then [r] else []) := by
  induction acc with
  | nil =>
    by_cases h : m = n
    · simp [addField, lookupFL, h]
    · simp [addField, lookupFL, h]
  | cons hd tl ih =>
    obtain ⟨k, rs⟩ := hd
    by_cases hk : k = m
    · subst hk
      by_cases hn : k = n
      · subst hn
        simp [addField, lookupFL]
      · simp [addField, lookupFL, hn]
    · by_cases hn : k = n
      · subst hn
        have hmn : m ≠ k := fun hh => hk (Eq.symm hh)
        simp [addField, lookupFL, hk, hmn]
      · simp [addField, lookupFL, hk, hn, ih]

lemma lookupFL_fold (oenv : OcrEnv) (denv : DecodeEnv) (p : PageData) (sx sy : ℚ)
    (n : String) (l : List FieldDef) :
    ∀ acc : List (String × List FieldResult),
      lookupFL n (l.foldl
          (fun a fd => addField a fd.name (extractField oenv denv p sx sy fd)) acc) =
        lookupFL n acc ++
          (l.filter (fun fd => fd.name = n)).map (extractField oenv denv p sx sy) := by
  induction l with
  | nil => intro acc; simp
  | cons fd tl ih =>
    intro acc
    simp only [List.foldl_cons, List.filter_cons]
    rw [ih (addField acc fd.name (extractField oenv denv p sx sy fd)), lookupFL_addField]
    by_cases h : fd.name = n
    · simp [h]
    · simp [h]

lemma processPage_page_number (oenv : OcrEnv) (denv : DecodeEnv) (t : Template)
    (p : PageData) (i : Nat) : (processPage oenv denv t p i).page_number = i + 1 := rfl

lemma pages_map_page_number (oenv : OcrEnv) (denv : DecodeEnv) (doc : List PageData)
    (t : Template) (l : List Nat) :
    ((l.filterMap (fun i =>
        match doc[i]? with
        | some p => some (processPage oenv denv t p i)
        | none => none)).map (fun pr => pr.page_number)) =
      (l.filter (fun i => i < doc.length)).map (fun i => i + 1) := by
  induction l with
  | nil => rfl
  | cons i tl ih =>
    simp only [List.filterMap_cons, List.filter_cons]
    by_cases h : i < doc.length
    · rw [List.getElem?_eq_getElem h]
      simp [h, ih, processPage_page_number]
    · have hnone : doc[i]? = none := by
        rw [List.getElem?_eq_none_iff]
        omega
      rw [hnone]
      simp [h, ih]

/-- C7, counterexample: requesting pages [1, 0] of a two-page document
produces the pages sequence in exactly that order — page numbers [2, 1],
not sorted ascending. -/
theorem pages_follow_request_order_cex :
    ((extract_data_from_pdf oenvTriv denvFail [pageDTriv, pageDTriv] t0 (some [1, 0])).pages.map
      (fun pr => pr.page_number)) = [2, 1] ∧
    ¬ List.Sorted (fun a b => a ≤ b) [2, 1] := by
  constructor
  · rfl
  · decide

/-- C7, amended: the runner visits the requested pages in the order they
are given (dropping out-of-range indices), ascending only when the
request itself is — the default all-pages selection; within each page,
each field name's results follow template order. -/
theorem run_visits_requested_order (oenv : OcrEnv) (denv : DecodeEnv) (doc : List PageData)
    (t : Template) :
    (∀ ps : List Nat,
      ((extract_data_from_pdf oenv denv doc t (some ps)).pages.map
          (fun pr => pr.page_number)) =
        ((if ps.isEmpty then List.range doc.length else ps).filter
          (fun i => i < doc.length)).map (fun i => i + 1)) ∧
    (∀ (p : PageData) (i : Nat) (name : String),
      lookupFL name (processPage oenv denv t p i).fields =
        (t.fields.filter (fun fd => fd.name = name)).map
          (extractField oenv denv p (scale_x t p) (scale_y t p))) := by
  constructor
  · intro ps
    simp only [extract_data_from_pdf]
    exact pages_map_page_number oenv denv doc t _
  · intro p i name
    simp only [processPage]
    rw [lookupFL_fold]
    simp [lookupFL]

end QCTool
